import Mathlib

/-!
Shallow embedding of `billing_calculator.py` (repository
`that-scientist/billing_time_calc`): a medical-billing time calculator that
parses a clock-time range, derives a duration, resolves a billing tier from
one of two lookup tables, and attaches advisory warnings.

Python machine model used throughout: Python `int` is modelled as `Int`
(durations can be negative), non-negative clock fields as `Nat`, strings as
`List Char` (all relevant inputs are ASCII), `None`-returning functions as
`Option`, and `raise CalculationError` as `Except CalcError`.
-/

namespace Billing

/-- Python `NoteType` enum. -/
inductive NoteType where
  | progressNote
  | consult
deriving DecidableEq, Repr

/-- Python `Time` dataclass: a time of day with hours and minutes. -/
structure Time where
  hours : Nat
  minutes : Nat
deriving DecidableEq, Repr

/-- Python `Time.total_minutes`: minutes since midnight. -/
def Time.total_minutes (t : Time) : Nat :=
  t.hours * 60 + t.minutes

/-- Zero-pads a natural number to two digits, as Python `f"{n:02d}"` does
for non-negative values. -/
def pad2 (n : Nat) : String :=
  if n < 10 then "0" ++ toString n else toString n

/-- Python `Time.formatted_string`: formats as `HH:MM`. -/
def Time.formatted_string (t : Time) : String :=
  pad2 t.hours ++ ":" ++ pad2 t.minutes

/-- Python `Time.from_minutes`: builds a `Time` from total minutes since
midnight (no reduction modulo 1440; `hours` is plain integer division). -/
def Time.from_minutes (minutes : Nat) : Time :=
  { hours := minutes / 60, minutes := minutes % 60 }

/-- Python `BillingTier` dataclass. -/
structure BillingTier where
  calls : Nat
  min_minutes : Option Nat
  max_minutes : Option Nat
  actual_minutes : Option Nat
deriving DecidableEq, Repr

/-- Python `Warning` variants (nested dataclasses `Warning.NearNextTier` and
`Warning.StartTimeNotOnHourOrHalfHour`). -/
inductive Warning where
  | nearNextTier (current_calls next_calls : Nat) (minutes_to_next : Int)
      (suggested_end_time : String)
  | startTimeNotOnHourOrHalfHour (suggested_start_time : String)
deriving DecidableEq, Repr

/-- True exactly on the `NearNextTier` variant. -/
def Warning.isNearNextTier : Warning → Bool
  | .nearNextTier _ _ _ _ => true
  | .startTimeNotOnHourOrHalfHour _ => false

/-- True exactly on the `StartTimeNotOnHourOrHalfHour` variant. -/
def Warning.isStartMisaligned : Warning → Bool
  | .nearNextTier _ _ _ _ => false
  | .startTimeNotOnHourOrHalfHour _ => true

/-- Python `CalculationResult` dataclass. -/
structure CalculationResult where
  calls : Nat
  duration : Int
  start_time : Time
  end_time : Time
  warnings : List Warning
  matched_tier : Option BillingTier
  note_type : NoteType
deriving DecidableEq, Repr

/-- The distinct `raise CalculationError(...)` sites of
`BillingCalculator.calculate`, one constructor per site.  (In Python all six
are the single exception class `CalculationError`; `belowConsultMinimum` and
`noMatchingConsultTier` even share the same message string.) -/
inductive CalcError where
  | invalidFormat
  | invalidTime
  | startAfterEnd
  | belowConsultMinimum
  | durationExceedsMaximum
  | noMatchingConsultTier
deriving DecidableEq, Repr

/-- Python `BillingCalculator.WARNING_WINDOW_MINUTES`. -/
def WARNING_WINDOW_MINUTES : Int := 10

/-- Python `BillingCalculator.CONSULT_MINIMUM_DURATION`. -/
def CONSULT_MINIMUM_DURATION : Int := 61

/-- Python `BillingCalculator.CONSULT_MAXIMUM_DURATION`. -/
def CONSULT_MAXIMUM_DURATION : Int := 180

/-- Python `BillingCalculator.PROGRESS_NOTE_MAXIMUM_DURATION`. -/
def PROGRESS_NOTE_MAXIMUM_DURATION : Int := 165

/-- Python `BillingCalculator.PROGRESS_NOTE_TABLE`: rows are
`(maxMinutes, actualMinutes, calls)`. -/
def PROGRESS_NOTE_TABLE : List (Nat × Nat × Nat) :=
  [(30, 24, 3), (45, 36, 4), (60, 48, 5), (75, 60, 6), (90, 72, 7),
   (105, 84, 8), (120, 96, 9), (135, 108, 10), (150, 120, 11), (165, 132, 12)]

/-- Python `BillingCalculator.CONSULT_TABLE`: rows are
`(minMinutes, maxMinutes, calls)`. -/
def CONSULT_TABLE : List (Nat × Nat × Nat) :=
  [(61, 71, 1), (72, 86, 2), (87, 101, 3), (102, 116, 4), (117, 131, 5),
   (132, 146, 6), (147, 161, 7), (162, 176, 8), (177, 180, 9)]

/-- The `for entry in PROGRESS_NOTE_TABLE` loop of `_find_calls_with_tier`:
first row whose `maxMinutes` bounds the duration from above. -/
def pnScan (duration : Int) : List (Nat × Nat × Nat) → Option (Nat × Option BillingTier)
  | [] => none
  | e :: rest =>
    if duration ≤ (e.1 : Int) then
      some (e.2.2, some { calls := e.2.2, min_minutes := none,
                          max_minutes := some e.1, actual_minutes := some e.2.1 })
    else pnScan duration rest

/-- The `for entry in CONSULT_TABLE` loop of `_find_calls_with_tier`:
first row whose inclusive `[minMinutes, maxMinutes]` range contains the
duration. -/
def consultScan (duration : Int) : List (Nat × Nat × Nat) → Option (Nat × Option BillingTier)
  | [] => none
  | e :: rest =>
    if (e.1 : Int) ≤ duration ∧ duration ≤ (e.2.1 : Int) then
      some (e.2.2, some { calls := e.2.2, min_minutes := some e.1,
                          max_minutes := some e.2.1, actual_minutes := none })
    else consultScan duration rest

/-- Python `BillingCalculator._find_calls_with_tier`, including both
defensive fallbacks: the first-row fallback for ProgressNote (reached only
if no row's max bounds the duration), the `(3, None)` fallback for an empty
ProgressNote table, and the `(0, None)` fallback for Consult. -/
def findCallsWithTier (duration : Int) (note_type : NoteType) : Nat × Option BillingTier :=
  match note_type with
  | .progressNote =>
    match pnScan duration PROGRESS_NOTE_TABLE with
    | some best_match => best_match
    | none =>
      match PROGRESS_NOTE_TABLE with
      | first_entry :: _ =>
        (first_entry.2.2, some { calls := first_entry.2.2, min_minutes := none,
                                 max_minutes := some first_entry.1,
                                 actual_minutes := some first_entry.2.1 })
      | [] => (3, none)
  | .consult =>
    match consultScan duration CONSULT_TABLE with
    | some found => found
    | none => (0, none)

/-- The scan loop of `_find_next_tier`: first row with strictly more calls
than the current count. -/
def nextScan (current_calls : Nat) : List (Nat × Nat × Nat) → Option (Nat × Nat × Nat)
  | [] => none
  | e :: rest => if current_calls < e.2.2 then some e else nextScan current_calls rest

/-- Python `BillingCalculator._find_next_tier`: the pair is
`(actualMinutes, calls)` for ProgressNote and `(minMinutes, calls)` for
Consult. -/
def findNextTier (current_calls : Nat) (note_type : NoteType) : Option (Nat × Nat) :=
  match note_type with
  | .progressNote => (nextScan current_calls PROGRESS_NOTE_TABLE).map (fun e => (e.2.1, e.2.2))
  | .consult => (nextScan current_calls CONSULT_TABLE).map (fun e => (e.1, e.2.2))

/-- Python `BillingCalculator._check_near_next_tier`. -/
def checkNearNextTier (duration : Int) (current_calls : Nat) (start_time : Time)
    (note_type : NoteType) : Option Warning :=
  match findNextTier current_calls note_type with
  | none => none
  | some next_tier =>
    let target_minutes := next_tier.1
    let minutes_to_next : Int := (target_minutes : Int) - duration
    if 0 < minutes_to_next ∧ minutes_to_next ≤ WARNING_WINDOW_MINUTES then
      some (.nearNextTier current_calls next_tier.2 minutes_to_next
        (Time.from_minutes (start_time.total_minutes + target_minutes)).formatted_string)
    else none

/-- Python `BillingCalculator._check_start_time_alignment`. -/
def checkStartTimeAlignment (start_time : Time) : Option Warning :=
  if start_time.minutes ≠ 0 ∧ start_time.minutes ≠ 30 then
    some (.startTimeNotOnHourOrHalfHour
      (if start_time.minutes < 15 then
        (⟨start_time.hours, 0⟩ : Time).formatted_string
       else if start_time.minutes < 45 then
        (⟨start_time.hours, 30⟩ : Time).formatted_string
       else
        (⟨(start_time.hours + 1) % 24, 0⟩ : Time).formatted_string))
  else none

/-! ### String-level layer: Python `str` helpers, `_parse_time`, and the
range splitter of `calculate`.  Strings are `List Char`; every helper models
the corresponding Python builtin on ASCII input. -/

/-- Python whitespace for `str.strip` and the regex class `\s` (ASCII part). -/
def isPySpace (c : Char) : Bool :=
  c = ' ' || c = '\t' || c = '\n' || c = '\r' || c = '\x0b' || c = '\x0c'

/-- Python `str.strip()` with no argument: removes leading and trailing
whitespace. -/
def pyStrip (s : List Char) : List Char :=
  ((s.dropWhile isPySpace).reverse.dropWhile isPySpace).reverse

/-- Python `str.upper()` on an ASCII character. -/
def pyUpperChar (c : Char) : Char :=
  if 'a' ≤ c && c ≤ 'z' then Char.ofNat (c.toNat - 32) else c

/-- Python `str.upper()` on an ASCII string. -/
def pyUpper (s : List Char) : List Char :=
  s.map pyUpperChar

/-- Whether `needle` occurs at the front of `s`. -/
def startsWithList (needle s : List Char) : Bool :=
  match needle, s with
  | [], _ => true
  | _ :: _, [] => false
  | a :: as, b :: bs => a = b && startsWithList as bs

/-- Python `needle in s`: substring containment. -/
def containsSub (needle : List Char) : List Char → Bool
  | [] => needle.isEmpty
  | c :: rest => startsWithList needle (c :: rest) || containsSub needle rest

/-- Python `s.endswith(needle)`. -/
def endsWithList (needle s : List Char) : Bool :=
  startsWithList needle.reverse s.reverse

/-- Python `s.split(sep)` for a single-character separator. -/
def splitOnChar (sep : Char) : List Char → List (List Char)
  | [] => [[]]
  | c :: rest =>
    if c = sep then [] :: splitOnChar sep rest
    else
      match splitOnChar sep rest with
      | [] => [[c]]
      | g :: gs => (c :: g) :: gs

/-- Python `int(s)` for ASCII text, as used on the split time components:
optional surrounding whitespace, optional single sign, then one or more
decimal digits; anything else is a `ValueError` (`none`).  (Python `int`
additionally accepts single underscores between digits; no input reaching
this function in any claim contains one, so that extension is not
modelled.) -/
def pyInt (s : List Char) : Option Int :=
  let t := pyStrip s
  match t with
  | '+' :: ds =>
    if !ds.isEmpty && ds.all Char.isDigit then
      some ((ds.foldl (fun acc c => acc * 10 + (c.toNat - 48)) 0 : Nat) : Int)
    else none
  | '-' :: ds =>
    if !ds.isEmpty && ds.all Char.isDigit then
      some (-((ds.foldl (fun acc c => acc * 10 + (c.toNat - 48)) 0 : Nat) : Int))
    else none
  | ds =>
    if !ds.isEmpty && ds.all Char.isDigit then
      some ((ds.foldl (fun acc c => acc * 10 + (c.toNat - 48)) 0 : Nat) : Int)
    else none

/-- Regex word character (`\w`): letter, digit or underscore. -/
def isWordChar (c : Char) : Bool :=
  c.isAlpha || c.isDigit || c = '_'

/-- Whether position `i` of `s` holds a word character (out of range counts
as a non-word position). -/
def wordAt (s : List Char) (i : Nat) : Bool :=
  match s.get? i with
  | some c => isWordChar c
  | none => false

/-- Regex `\b` at position `i` of `s`: a word/non-word transition (string
edges count as non-word). -/
def boundaryAt (s : List Char) (i : Nat) : Bool :=
  (if i = 0 then false else wordAt s (i - 1)) != wordAt s i

/-- Python `re.search` for a pattern `\b(alt1|alt2|...)\b` over literal
alternatives: the start index of the leftmost position where some
alternative matches between word boundaries. -/
def searchWordToken (alts : List (List Char)) (s : List Char) : Option Nat :=
  (List.range (s.length + 1)).find? (fun i =>
    alts.any (fun a =>
      boundaryAt s i && startsWithList a (s.drop i) && boundaryAt s (i + a.length)))

/-- The meridiem marker resolved by `_parse_time`. -/
inductive Period where
  | am
  | pm
deriving DecidableEq, Repr

/-- Whether `_parse_time` takes its 12-hour branch: the uppercased token
contains one of the four marker forms. -/
def is12Hour (trimmed : List Char) : Bool :=
  containsSub "AM".toList trimmed || containsSub "PM".toList trimmed ||
  containsSub "A.M.".toList trimmed || containsSub "P.M.".toList trimmed

/-- The marker-extraction cascade of `_parse_time` (lines 252-280): suffix
forms first, then a word-boundary regex search for a marker in the middle.
Returns the time part (stripped when the code strips it) and the period. -/
def extractPeriod (trimmed : List Char) : Option (List Char × Period) :=
  if endsWithList "A.M.".toList trimmed then
    some (pyStrip (trimmed.take (trimmed.length - 4)), .am)
  else if endsWithList "P.M.".toList trimmed then
    some (pyStrip (trimmed.take (trimmed.length - 4)), .pm)
  else if endsWithList "AM".toList trimmed then
    some (pyStrip (trimmed.take (trimmed.length - 2)), .am)
  else if endsWithList "PM".toList trimmed then
    some (pyStrip (trimmed.take (trimmed.length - 2)), .pm)
  else
    match searchWordToken ["AM".toList, "A.M.".toList] trimmed with
    | some i => some (pyStrip (trimmed.take i), .am)
    | none =>
      match searchWordToken ["PM".toList, "P.M.".toList] trimmed with
      | some i => some (pyStrip (trimmed.take i), .pm)
      | none => none

/-- The digit-grouping step shared by both branches of `_parse_time`: split
on a colon when present (requiring exactly two components), otherwise accept
exactly 3 or 4 characters read as `H MM` or `HH MM`. -/
def splitComponents (time_part : List Char) : Option (List Char × List Char) :=
  if containsSub [':'] time_part then
    match splitOnChar ':' time_part with
    | [a, b] => some (a, b)
    | _ => none
  else if time_part.length = 3 then
    some (time_part.take 1, time_part.drop 1)
  else if time_part.length = 4 then
    some (time_part.take 2, time_part.drop 2)
  else none

/-- Lines 303-312 of `_parse_time`: the 12-hour range check and the
conversion to 24-hour form. -/
def convert12 (period : Period) (hours_12 minutes : Int) : Option Time :=
  if 1 ≤ hours_12 ∧ hours_12 ≤ 12 ∧ 0 ≤ minutes ∧ minutes ≤ 59 then
    some { hours :=
             match period with
             | .am => if hours_12 = 12 then 0 else hours_12.toNat
             | .pm => if hours_12 = 12 then 12 else hours_12.toNat + 12
           minutes := minutes.toNat }
  else none

/-- Python `BillingCalculator._parse_time`. -/
def parseTime (time_string : List Char) : Option Time :=
  let trimmed := pyUpper (pyStrip time_string)
  if is12Hour trimmed then
    match extractPeriod trimmed with
    | none => none
    | some tp =>
      match splitComponents tp.1 with
      | none => none
      | some cs =>
        match pyInt cs.1, pyInt cs.2 with
        | some hours_12, some minutes => convert12 tp.2 hours_12 minutes
        | _, _ => none
  else
    match splitComponents trimmed with
    | none => none
    | some cs =>
      match pyInt cs.1, pyInt cs.2 with
      | some hours, some minutes =>
        if 0 ≤ hours ∧ hours ≤ 23 ∧ 0 ≤ minutes ∧ minutes ≤ 59 then
          some { hours := hours.toNat, minutes := minutes.toNat }
        else none
      | _, _ => none

/-- One attempt of the separator regex `\s+to\s+|-` (case-insensitive) at
position `i`: `some e` gives the end of the match.  The first alternative
needs at least one whitespace character, a `to` token, and at least one
trailing whitespace character (both runs taken greedily); otherwise a
literal `-` at `i` matches. -/
def sepMatchAt (s : List Char) (i : Nat) : Option Nat :=
  let rest := s.drop i
  let l := (rest.takeWhile isPySpace).length
  let isTo :=
    decide (1 ≤ l) &&
    (match rest.get? l with | some c => c = 't' || c = 'T' | none => false) &&
    (match rest.get? (l + 1) with | some c => c = 'o' || c = 'O' | none => false)
  if isTo then
    let m := ((rest.drop (l + 2)).takeWhile isPySpace).length
    if 1 ≤ m then some (i + l + 2 + m) else none
  else if rest.get? 0 = some '-' then some (i + 1)
  else none

/-- Python `re.search(r"\s+to\s+|-", trimmed_input, re.IGNORECASE)`:
`(start, end)` of the leftmost separator match. -/
def findSep (s : List Char) : Option (Nat × Nat) :=
  (List.range s.length).findSome? (fun i => (sepMatchAt s i).map (fun e => (i, e)))

/-- Python `BillingCalculator._calculate_duration`. -/
def calculateDuration (start_time end_time : Time) : Int :=
  (end_time.total_minutes : Int) - (start_time.total_minutes : Int)

/-- The `max_duration` local of `calculate` (lines 200-204): the category's
duration ceiling. -/
def maxDurationFor (note_type : NoteType) : Int :=
  if note_type = .consult then CONSULT_MAXIMUM_DURATION
  else PROGRESS_NOTE_MAXIMUM_DURATION

/-- The `warnings` list assembled by `calculate` (lines 217-231): the
near-next-tier warning when present, then — for Progress Notes only — the
start-time-alignment warning when present. -/
def assembleWarnings (duration : Int) (calls : Nat) (start_time : Time)
    (note_type : NoteType) : List Warning :=
  (checkNearNextTier duration calls start_time note_type).toList ++
  (if note_type = .progressNote then (checkStartTimeAlignment start_time).toList else [])

/-- Lines 187-241 of `BillingCalculator.calculate`: everything after the two
time tokens have been parsed (duration, bounds checks, tier resolution,
warnings, result assembly). -/
def calculateFromTimes (start_time end_time : Time) (note_type : NoteType) :
    Except CalcError CalculationResult :=
  let duration := calculateDuration start_time end_time
  if duration < 0 then .error .startAfterEnd
  else if note_type = .consult ∧ duration < CONSULT_MINIMUM_DURATION then
    .error .belowConsultMinimum
  else if duration > maxDurationFor note_type then
    .error .durationExceedsMaximum
  else
    let fc := findCallsWithTier duration note_type
    if note_type = .consult ∧ fc.1 = 0 then .error .noMatchingConsultTier
    else
      .ok { calls := fc.1
            duration := duration
            start_time := start_time
            end_time := end_time
            warnings := assembleWarnings duration fc.1 start_time note_type
            matched_tier := fc.2
            note_type := note_type }

/-- Python `BillingCalculator.calculate`: strip the input, locate the
separator, parse both halves, then run the post-parse pipeline
(`calculateFromTimes`). -/
def calculate (input_str : String) (note_type : NoteType) :
    Except CalcError CalculationResult :=
  let trimmed_input := pyStrip input_str.toList
  match findSep trimmed_input with
  | none => .error .invalidFormat
  | some se =>
    match parseTime (pyStrip (trimmed_input.take se.1)),
          parseTime (pyStrip (trimmed_input.drop se.2)) with
    | some start_time, some end_time => calculateFromTimes start_time end_time note_type
    | _, _ => .error .invalidTime

/-! ### Specification-side definitions

These restate, in the spec's own vocabulary, the quantities the claims talk
about; the theorems below relate them to the code-derived definitions. -/

/-- Spec formulation of the next tier (section 4.4): the first table row, in
ascending order, whose calls count exceeds the current one, paired as
`(threshold, calls)` where the threshold is the row's face-to-face minutes
for ProgressNote and its min-minutes for Consult. -/
def specNextTier (current_calls : Nat) (note_type : NoteType) : Option (Nat × Nat) :=
  match note_type with
  | .progressNote =>
    (PROGRESS_NOTE_TABLE.find? (fun e => current_calls < e.2.2)).map (fun e => (e.2.1, e.2.2))
  | .consult =>
    (CONSULT_TABLE.find? (fun e => current_calls < e.2.2)).map (fun e => (e.1, e.2.2))

/-! ### Helper lemmas -/

lemma nextScan_eq_find (c : Nat) (l : List (Nat × Nat × Nat)) :
    nextScan c l = l.find? (fun e => c < e.2.2) := by
  induction l with
  | nil => rfl
  | cons e rest ih =>
    simp only [nextScan, List.find?]
    by_cases h : c < e.2.2
    · simp [h]
    · simp [h, ih]

lemma findNextTier_eq_spec (c : Nat) (nt : NoteType) :
    findNextTier c nt = specNextTier c nt := by
  cases nt <;> simp [findNextTier, specNextTier, nextScan_eq_find]

/-- Inversion for the success branch of `calculateFromTimes`: a returned
result is exactly the assembled record, and every guard held. -/
lemma calculateFromTimes_ok_inv (st et : Time) (nt : NoteType) (r : CalculationResult)
    (h : calculateFromTimes st et nt = Except.ok r) :
    0 ≤ calculateDuration st et ∧
    calculateDuration st et ≤ maxDurationFor nt ∧
    (nt = .consult → 61 ≤ calculateDuration st et ∧
      (findCallsWithTier (calculateDuration st et) nt).1 ≠ 0) ∧
    r = { calls := (findCallsWithTier (calculateDuration st et) nt).1
          duration := calculateDuration st et
          start_time := st
          end_time := et
          warnings := assembleWarnings (calculateDuration st et)
            (findCallsWithTier (calculateDuration st et) nt).1 st nt
          matched_tier := (findCallsWithTier (calculateDuration st et) nt).2
          note_type := nt } := by
  simp only [calculateFromTimes, CONSULT_MINIMUM_DURATION] at h
  split_ifs at h with h1 h2 h3 h4
  refine ⟨by omega, by omega, ?_, ?_⟩
  · intro hc
    refine ⟨?_, ?_⟩
    · rcases not_and_or.mp h2 with h2 | h2
      · exact absurd hc h2
      · omega
    · intro hzero
      exact h4 ⟨hc, hzero⟩
  · injection h with h5
    exact h5.symm

/-- A warning produced by `checkNearNextTier` is always the `NearNextTier`
variant. -/
lemma checkNearNextTier_shape (d : Int) (c : Nat) (st : Time) (nt : NoteType)
    (w : Warning) (h : checkNearNextTier d c st nt = some w) :
    w.isNearNextTier = true := by
  unfold checkNearNextTier at h
  cases hf : findNextTier c nt with
  | none =>
    rw [hf] at h
    exact Option.noConfusion h
  | some tc =>
    rw [hf] at h
    simp only at h
    split_ifs at h
    first
      | exact Option.noConfusion h
      | (injection h with h1; subst h1; rfl)

/-- A warning produced by `checkStartTimeAlignment` is always the
`StartTimeNotOnHourOrHalfHour` variant. -/
lemma checkStartTimeAlignment_shape (st : Time) (w : Warning)
    (h : checkStartTimeAlignment st = some w) :
    w.isStartMisaligned = true := by
  unfold checkStartTimeAlignment at h
  split_ifs at h <;>
    first
      | exact Option.noConfusion h
      | (injection h with h1; subst h1; rfl)

lemma filter_near_assemble (d : Int) (c : Nat) (st : Time) (nt : NoteType) :
    (assembleWarnings d c st nt).filter Warning.isNearNextTier =
      (checkNearNextTier d c st nt).toList := by
  unfold assembleWarnings
  rw [List.filter_append]
  have hleft : (checkNearNextTier d c st nt).toList.filter Warning.isNearNextTier =
      (checkNearNextTier d c st nt).toList := by
    cases hn : checkNearNextTier d c st nt with
    | none => rfl
    | some w => simp [Option.toList, List.filter, checkNearNextTier_shape d c st nt w hn]
  have hright : ((if nt = .progressNote then (checkStartTimeAlignment st).toList
      else []).filter Warning.isNearNextTier) = [] := by
    split_ifs
    · cases ha : checkStartTimeAlignment st with
      | none => rfl
      | some w =>
        have hshape := checkStartTimeAlignment_shape st w ha
        cases w with
        | nearNextTier a b e f => exact absurd hshape (by simp [Warning.isStartMisaligned])
        | startTimeNotOnHourOrHalfHour sg => simp [Option.toList, List.filter, Warning.isNearNextTier]
    · rfl
  rw [hleft, hright, List.append_nil]

lemma filter_align_assemble (d : Int) (c : Nat) (st : Time) (nt : NoteType) :
    (assembleWarnings d c st nt).filter Warning.isStartMisaligned =
      (if nt = .progressNote then (checkStartTimeAlignment st).toList else []) := by
  unfold assembleWarnings
  rw [List.filter_append]
  have hleft : (checkNearNextTier d c st nt).toList.filter Warning.isStartMisaligned = [] := by
    cases hn : checkNearNextTier d c st nt with
    | none => rfl
    | some w =>
      have hshape := checkNearNextTier_shape d c st nt w hn
      cases w with
      | nearNextTier a b e f => simp [Option.toList, List.filter, Warning.isStartMisaligned]
      | startTimeNotOnHourOrHalfHour sg => exact absurd hshape (by simp [Warning.isNearNextTier])
  have hright : ((if nt = .progressNote then (checkStartTimeAlignment st).toList
      else []).filter Warning.isStartMisaligned) =
      (if nt = .progressNote then (checkStartTimeAlignment st).toList else []) := by
    split_ifs
    · cases ha : checkStartTimeAlignment st with
      | none => rfl
      | some w => simp [Option.toList, List.filter, checkStartTimeAlignment_shape st w ha]
    · rfl
  rw [hleft, hright, List.nil_append]

/-- What `checkNearNextTier` contributes to the warnings list, phrased with
the spec-side `specNextTier`. -/
lemma checkNearNextTier_toList (d : Int) (c : Nat) (st : Time) (nt : NoteType) :
    (checkNearNextTier d c st nt).toList =
      (match specNextTier c nt with
       | none => []
       | some (threshold, next_calls) =>
         if 0 < (threshold : Int) - d ∧ (threshold : Int) - d ≤ 10 then
           [Warning.nearNextTier c next_calls ((threshold : Int) - d)
             (Time.from_minutes (st.total_minutes + threshold)).formatted_string]
         else []) := by
  unfold checkNearNextTier
  rw [findNextTier_eq_spec]
  cases hs : specNextTier c nt with
  | none => rfl
  | some tc =>
    obtain ⟨threshold, next_calls⟩ := tc
    simp only [WARNING_WINDOW_MINUTES]
    split_ifs <;> rfl

set_option maxHeartbeats 4000000 in
set_option maxRecDepth 10000 in
/-- Monotonicity of the ProgressNote calls resolution over every duration a
successful ProgressNote calculation can carry. -/
lemma pnCalls_mono_nat : ∀ a ∈ Finset.range 166, ∀ b ∈ Finset.range 166, a ≤ b →
    (findCallsWithTier (a : Int) .progressNote).1 ≤
      (findCallsWithTier (b : Int) .progressNote).1 := by decide

set_option maxHeartbeats 4000000 in
set_option maxRecDepth 10000 in
/-- Monotonicity of the Consult calls resolution over every duration a
successful Consult calculation can carry. -/
lemma consultCalls_mono_nat : ∀ a ∈ Finset.range 181, ∀ b ∈ Finset.range 181,
    61 ≤ a → a ≤ b →
    (findCallsWithTier (a : Int) .consult).1 ≤ (findCallsWithTier (b : Int) .consult).1 := by
  decide

set_option maxHeartbeats 1000000 in
set_option maxRecDepth 10000 in
/-- Every in-bounds Consult duration lies in some row's inclusive range and
resolves to a nonzero calls count. -/
lemma consult_covered_nat : ∀ a ∈ Finset.range 181, 61 ≤ a →
    (∃ e ∈ CONSULT_TABLE, e.1 ≤ a ∧ a ≤ e.2.1) ∧
    (findCallsWithTier (a : Int) .consult).1 ≠ 0 := by decide

lemma pnCalls_mono (d1 d2 : Int) (h0 : 0 ≤ d1) (h12 : d1 ≤ d2) (h2 : d2 ≤ 165) :
    (findCallsWithTier d1 .progressNote).1 ≤ (findCallsWithTier d2 .progressNote).1 := by
  have ha : d1 = ((d1.toNat : Nat) : Int) := (Int.toNat_of_nonneg h0).symm
  have hb : d2 = ((d2.toNat : Nat) : Int) := (Int.toNat_of_nonneg (le_trans h0 h12)).symm
  rw [ha, hb]
  exact pnCalls_mono_nat d1.toNat (Finset.mem_range.mpr (by omega))
    d2.toNat (Finset.mem_range.mpr (by omega)) (by omega)

lemma consultCalls_mono (d1 d2 : Int) (h1 : 61 ≤ d1) (h12 : d1 ≤ d2) (h2 : d2 ≤ 180) :
    (findCallsWithTier d1 .consult).1 ≤ (findCallsWithTier d2 .consult).1 := by
  have ha : d1 = ((d1.toNat : Nat) : Int) := (Int.toNat_of_nonneg (by omega)).symm
  have hb : d2 = ((d2.toNat : Nat) : Int) := (Int.toNat_of_nonneg (by omega)).symm
  rw [ha, hb]
  exact consultCalls_mono_nat d1.toNat (Finset.mem_range.mpr (by omega))
    d2.toNat (Finset.mem_range.mpr (by omega)) (by omega) (by omega)

/-! ### Claim theorems -/

/-- C1, counterexample: `calculate("09:00-09:20", ProgressNote)` does succeed
with duration 20 and calls 3, but the result carries NO `NearNextTier`
warning, contradicting the claim as stated. -/
theorem c1_counterexample :
    (calculate "09:00-09:20" NoteType.progressNote).map
        (fun r => (r.duration, r.calls, r.warnings.any Warning.isNearNextTier)) =
      Except.ok ((20 : Int), 3, false) := by
  rfl

/-- C1, amended: `calculate("09:00-09:20", ProgressNote)` succeeds with
duration = 20 and calls = 3 (matched from the row with billingMaxMinutes =
30), and the result carries no warnings at all: in particular no
`NearNextTier` warning, because the next tier's threshold is the face-to-face
minutes of the calls = 4 row (36 minutes), and 36 − 20 = 16 > 10. -/
theorem c1_amended :
    calculate "09:00-09:20" NoteType.progressNote =
      Except.ok { calls := 3, duration := 20, start_time := ⟨9, 0⟩, end_time := ⟨9, 20⟩,
                  warnings := [],
                  matched_tier := some ⟨3, none, some 30, some 24⟩,
                  note_type := .progressNote } := by
  rfl

/-- C5: the three input formats `"9:00 AM to 10:30 AM"`, `"09:00-10:30"` and
`"0900-1030"` parse to the identical start time 09:00, end time 10:30, and
duration 90, for both note categories. -/
theorem c5_format_equivalence :
    ((calculate "9:00 AM to 10:30 AM" NoteType.progressNote).map
        (fun r => (r.start_time, r.end_time, r.duration)) =
      Except.ok (⟨9, 0⟩, ⟨10, 30⟩, (90 : Int)) ∧
     (calculate "09:00-10:30" NoteType.progressNote).map
        (fun r => (r.start_time, r.end_time, r.duration)) =
      Except.ok (⟨9, 0⟩, ⟨10, 30⟩, (90 : Int)) ∧
     (calculate "0900-1030" NoteType.progressNote).map
        (fun r => (r.start_time, r.end_time, r.duration)) =
      Except.ok (⟨9, 0⟩, ⟨10, 30⟩, (90 : Int))) ∧
    ((calculate "9:00 AM to 10:30 AM" NoteType.consult).map
        (fun r => (r.start_time, r.end_time, r.duration)) =
      Except.ok (⟨9, 0⟩, ⟨10, 30⟩, (90 : Int)) ∧
     (calculate "09:00-10:30" NoteType.consult).map
        (fun r => (r.start_time, r.end_time, r.duration)) =
      Except.ok (⟨9, 0⟩, ⟨10, 30⟩, (90 : Int)) ∧
     (calculate "0900-1030" NoteType.consult).map
        (fun r => (r.start_time, r.end_time, r.duration)) =
      Except.ok (⟨9, 0⟩, ⟨10, 30⟩, (90 : Int))) := by
  exact ⟨⟨rfl, rfl, rfl⟩, ⟨rfl, rfl, rfl⟩⟩

/-- C10: on the valid input `"23:24-23:54"` with ProgressNote (duration 30,
calls 3), the calculation succeeds and the `NearNextTier` warning's suggested
end time string is `"24:00"`: `Time.from_minutes` does not reduce the sum
1404 + 36 = 1440 modulo 1440, so the hour field is 24, outside the Clock
Time range. -/
theorem c10_end_time_overflow :
    Time.from_minutes 1440 = ⟨24, 0⟩ ∧
    calculate "23:24-23:54" NoteType.progressNote =
      Except.ok { calls := 3, duration := 30, start_time := ⟨23, 24⟩, end_time := ⟨23, 54⟩,
                  warnings := [Warning.nearNextTier 3 4 6 "24:00",
                               Warning.startTimeNotOnHourOrHalfHour "23:30"],
                  matched_tier := some ⟨3, none, some 30, some 24⟩,
                  note_type := .progressNote } := by
  exact ⟨rfl, rfl⟩

/-- C2: for every successful calculation, the `NearNextTier` warnings of the
result are exactly what the spec prescribes: with the next tier the first
table row (ascending) whose calls exceed the resolved calls, and the
threshold that row's face-to-face minutes (ProgressNote) or min-minutes
(Consult), the warning is present iff such a row exists and
0 < threshold − duration ≤ 10, and it then carries minutes_to_next =
threshold − duration and the suggested end time start + threshold minutes. -/
theorem c2_near_next_tier (st et : Time) (nt : NoteType) (r : CalculationResult)
    (h : calculateFromTimes st et nt = Except.ok r) :
    r.warnings.filter Warning.isNearNextTier =
      (match specNextTier r.calls nt with
       | none => []
       | some (threshold, next_calls) =>
         if 0 < (threshold : Int) - r.duration ∧ (threshold : Int) - r.duration ≤ 10 then
           [Warning.nearNextTier r.calls next_calls ((threshold : Int) - r.duration)
             (Time.from_minutes (st.total_minutes + threshold)).formatted_string]
         else []) := by
  obtain ⟨-, -, -, hr⟩ := calculateFromTimes_ok_inv st et nt r h
  subst hr
  simp only
  rw [filter_near_assemble, checkNearNextTier_toList]

/-- C2 witness: instantiated at `09:00-09:45` (ProgressNote), whose result
carries exactly one near-next-tier warning (threshold 48, 3 minutes away,
suggested end 09:48). -/
theorem c2_witness :
    ({ calls := 4, duration := 45, start_time := ⟨9, 0⟩, end_time := ⟨9, 45⟩,
       warnings := [Warning.nearNextTier 4 5 3 "09:48"],
       matched_tier := some ⟨4, none, some 45, some 36⟩,
       note_type := .progressNote } : CalculationResult).warnings.filter
        Warning.isNearNextTier =
      [Warning.nearNextTier 4 5 3 "09:48"] := by
  have h := c2_near_next_tier ⟨9, 0⟩ ⟨9, 45⟩ NoteType.progressNote
    { calls := 4, duration := 45, start_time := ⟨9, 0⟩, end_time := ⟨9, 45⟩,
      warnings := [Warning.nearNextTier 4 5 3 "09:48"],
      matched_tier := some ⟨4, none, some 45, some 36⟩,
      note_type := .progressNote } (by rfl)
  rw [h]
  rfl

/-- C3: every Consult duration that passes the bounds checks
(61 ≤ duration ≤ 180) is contained in the inclusive range of some row of the
Consult table, so the calls = 0 fallback (`NoMatchingConsultTier`) is
unreachable. -/
theorem c3_consult_coverage (d : Int) (h1 : 61 ≤ d) (h2 : d ≤ 180) :
    (∃ e ∈ CONSULT_TABLE, (e.1 : Int) ≤ d ∧ d ≤ (e.2.1 : Int)) ∧
    (findCallsWithTier d .consult).1 ≠ 0 := by
  have hd : d = ((d.toNat : Nat) : Int) := (Int.toNat_of_nonneg (by omega)).symm
  obtain ⟨⟨e, he, hlo, hhi⟩, hnz⟩ :=
    consult_covered_nat d.toNat (Finset.mem_range.mpr (by omega)) (by omega)
  constructor
  · exact ⟨e, he, by omega, by omega⟩
  · rw [hd]
    exact hnz

/-- C3 witness: instantiated at duration 100 (row 87-101). -/
theorem c3_witness :
    ((61 : Int) ≤ 100 ∧ (100 : Int) ≤ 180) ∧
    ((∃ e ∈ CONSULT_TABLE, (e.1 : Int) ≤ 100 ∧ (100 : Int) ≤ (e.2.1 : Int)) ∧
      (findCallsWithTier 100 .consult).1 ≠ 0) :=
  ⟨by decide, c3_consult_coverage 100 (by decide) (by decide)⟩

/-- C4: for a fixed note category, over all inputs on which the calculation
succeeds, the resolved calls count is monotone in the duration. -/
theorem c4_calls_monotone (nt : NoteType) (st1 et1 st2 et2 : Time)
    (r1 r2 : CalculationResult)
    (h1 : calculateFromTimes st1 et1 nt = Except.ok r1)
    (h2 : calculateFromTimes st2 et2 nt = Except.ok r2)
    (hd : r1.duration ≤ r2.duration) :
    r1.calls ≤ r2.calls := by
  obtain ⟨ha1, hb1, hc1, hr1⟩ := calculateFromTimes_ok_inv st1 et1 nt r1 h1
  obtain ⟨ha2, hb2, hc2, hr2⟩ := calculateFromTimes_ok_inv st2 et2 nt r2 h2
  subst hr1
  subst hr2
  simp only at hd ⊢
  cases nt with
  | progressNote =>
    refine pnCalls_mono _ _ ha1 hd ?_
    simpa [maxDurationFor] using hb2
  | consult =>
    exact consultCalls_mono _ _ (hc1 rfl).1 hd (by simpa [maxDurationFor] using hb2)

/-- C4 witness: instantiated for ProgressNote on `09:00-09:20` (calls 3) and
`09:00-09:45` (calls 4). -/
theorem c4_witness :
    ({ calls := 3, duration := 20, start_time := ⟨9, 0⟩, end_time := ⟨9, 20⟩,
       warnings := [], matched_tier := some ⟨3, none, some 30, some 24⟩,
       note_type := .progressNote } : CalculationResult).calls ≤
    ({ calls := 4, duration := 45, start_time := ⟨9, 0⟩, end_time := ⟨9, 45⟩,
       warnings := [Warning.nearNextTier 4 5 3 "09:48"],
       matched_tier := some ⟨4, none, some 45, some 36⟩,
       note_type := .progressNote } : CalculationResult).calls := by
  exact c4_calls_monotone NoteType.progressNote ⟨9, 0⟩ ⟨9, 20⟩ ⟨9, 0⟩ ⟨9, 45⟩
    { calls := 3, duration := 20, start_time := ⟨9, 0⟩, end_time := ⟨9, 20⟩,
      warnings := [], matched_tier := some ⟨3, none, some 30, some 24⟩,
      note_type := .progressNote }
    { calls := 4, duration := 45, start_time := ⟨9, 0⟩, end_time := ⟨9, 45⟩,
      warnings := [Warning.nearNextTier 4 5 3 "09:48"],
      matched_tier := some ⟨4, none, some 45, some 36⟩,
      note_type := .progressNote } (by rfl) (by rfl) (by decide)

/-- C6: the calculation fails with `belowConsultMinimum` exactly when the
category is Consult and the (non-negative) duration is below 61, and with
`durationExceedsMaximum` exactly when the duration exceeds the category's
ceiling — 165 for ProgressNote, 180 for Consult. -/
theorem c6_bounds_errors (st et : Time) (nt : NoteType) :
    (calculateFromTimes st et nt = Except.error .belowConsultMinimum ↔
      (nt = .consult ∧ 0 ≤ (et.total_minutes : Int) - (st.total_minutes : Int) ∧
        (et.total_minutes : Int) - (st.total_minutes : Int) < 61)) ∧
    (calculateFromTimes st et nt = Except.error .durationExceedsMaximum ↔
      ((nt = .progressNote ∧ 165 < (et.total_minutes : Int) - (st.total_minutes : Int)) ∨
       (nt = .consult ∧ 180 < (et.total_minutes : Int) - (st.total_minutes : Int)))) := by
  have hdur : calculateDuration st et =
      (et.total_minutes : Int) - (st.total_minutes : Int) := rfl
  cases nt with
  | progressNote =>
    simp only [calculateFromTimes, CONSULT_MINIMUM_DURATION, maxDurationFor,
      CONSULT_MAXIMUM_DURATION, PROGRESS_NOTE_MAXIMUM_DURATION, hdur]
    norm_num
    split_ifs <;> simp_all
    omega
  | consult =>
    simp only [calculateFromTimes, CONSULT_MINIMUM_DURATION, maxDurationFor,
      CONSULT_MAXIMUM_DURATION, PROGRESS_NOTE_MAXIMUM_DURATION, hdur]
    norm_num
    split_ifs <;> simp_all <;> omega

/-- C9: for every pair of parsed times, the duration is end minus start in
minutes since midnight; a negative duration yields the `startAfterEnd` error
(so no result, hence no warnings), and every successful result's duration
field is exactly that difference. -/
theorem c9_duration_invariant (st et : Time) (nt : NoteType) :
    ((et.total_minutes : Int) - (st.total_minutes : Int) < 0 →
      calculateFromTimes st et nt = Except.error .startAfterEnd) ∧
    (∀ r, calculateFromTimes st et nt = Except.ok r →
      r.duration = (et.total_minutes : Int) - (st.total_minutes : Int)) := by
  constructor
  · intro hneg
    have hneg2 : calculateDuration st et < 0 := hneg
    simp only [calculateFromTimes]
    rw [if_pos hneg2]
  · intro r h
    obtain ⟨-, -, -, hr⟩ := calculateFromTimes_ok_inv st et nt r h
    subst hr
    rfl

/-- C7: whenever the parser takes its 12-hour branch and extracts a period
and two integer components, it accepts exactly hour ∈ [1,12] and minute ∈
[0,59], converting AM to hour 0 when hour12 = 12 and hour12 otherwise, and
PM to hour 12 when hour12 = 12 and hour12 + 12 otherwise. -/
theorem c7_twelve_hour (s tp : List Char) (p : Period) (c1 c2 : List Char)
    (hours_12 minutes : Int)
    (hbranch : is12Hour (pyUpper (pyStrip s)) = true)
    (hper : extractPeriod (pyUpper (pyStrip s)) = some (tp, p))
    (hsplit : splitComponents tp = some (c1, c2))
    (hh : pyInt c1 = some hours_12) (hm : pyInt c2 = some minutes) :
    parseTime s =
      (if 1 ≤ hours_12 ∧ hours_12 ≤ 12 ∧ 0 ≤ minutes ∧ minutes ≤ 59 then
        some { hours :=
                 match p with
                 | .am => if hours_12 = 12 then 0 else hours_12.toNat
                 | .pm => if hours_12 = 12 then 12 else hours_12.toNat + 12
               minutes := minutes.toNat }
      else none) := by
  simp only [parseTime, hbranch, hper, hsplit, hh, hm, if_true]
  cases p <;> rfl

/-- C7 witness: instantiated on the token `"9:30 PM"`, which parses to
21:30. -/
theorem c7_witness :
    parseTime ("9:30 PM".toList) = some ⟨21, 30⟩ := by
  have h := c7_twelve_hour ("9:30 PM".toList) ("9:30".toList) Period.pm
    ("9".toList) ("30".toList) 9 30 (by rfl) (by rfl) (by rfl) (by rfl) (by rfl)
  rw [h]
  rfl

/-- C8: for every successful calculation, the start-time alignment warning
is present iff the category is ProgressNote and the start minute is neither
0 nor 30, and it then suggests: minute < 15 → same hour at minute 0;
15 ≤ minute < 45 → same hour at minute 30; minute ≥ 45 → minute 0 with the
hour incremented modulo 24.  Consult results never carry it. -/
theorem c8_alignment (st et : Time) (nt : NoteType) (r : CalculationResult)
    (h : calculateFromTimes st et nt = Except.ok r) :
    r.warnings.filter Warning.isStartMisaligned =
      (if nt = .progressNote ∧ st.minutes ≠ 0 ∧ st.minutes ≠ 30 then
        [Warning.startTimeNotOnHourOrHalfHour
          ((if st.minutes < 15 then (⟨st.hours, 0⟩ : Time)
            else if st.minutes < 45 then (⟨st.hours, 30⟩ : Time)
            else (⟨(st.hours + 1) % 24, 0⟩ : Time)).formatted_string)]
      else []) := by
  obtain ⟨-, -, -, hr⟩ := calculateFromTimes_ok_inv st et nt r h
  subst hr
  simp only
  rw [filter_align_assemble]
  cases nt with
  | consult => simp
  | progressNote =>
    rw [if_pos rfl]
    unfold checkStartTimeAlignment
    split_ifs <;> first | rfl | tauto

/-- C8 witness: instantiated at `09:20-09:40` (ProgressNote), whose result
carries exactly the alignment warning suggesting 09:30. -/
theorem c8_witness :
    ({ calls := 3, duration := 20, start_time := ⟨9, 20⟩, end_time := ⟨9, 40⟩,
       warnings := [Warning.startTimeNotOnHourOrHalfHour "09:30"],
       matched_tier := some ⟨3, none, some 30, some 24⟩,
       note_type := .progressNote } : CalculationResult).warnings.filter
        Warning.isStartMisaligned =
      [Warning.startTimeNotOnHourOrHalfHour "09:30"] := by
  have h := c8_alignment ⟨9, 20⟩ ⟨9, 40⟩ NoteType.progressNote
    { calls := 3, duration := 20, start_time := ⟨9, 20⟩, end_time := ⟨9, 40⟩,
      warnings := [Warning.startTimeNotOnHourOrHalfHour "09:30"],
      matched_tier := some ⟨3, none, some 30, some 24⟩,
      note_type := .progressNote } (by rfl)
  rw [h]
  rfl

/-- C9 witness: instantiated at 10:00 → 09:00 (error branch) with
ProgressNote. -/
theorem c9_witness :
    calculateFromTimes ⟨10, 0⟩ ⟨9, 0⟩ NoteType.progressNote =
      Except.error CalcError.startAfterEnd :=
  (c9_duration_invariant ⟨10, 0⟩ ⟨9, 0⟩ NoteType.progressNote).1 (by decide)

end Billing
